import Mathlib

/-!
Verification of the media playback control surface of the Zinema frontend
(`src/modules/shared/components/VideoPlayer.tsx`).

The component's pure computations (seek clamping, volume clamping, mute
toggling, subtitle cue repositioning, time formatting) are embedded as Lean
functions over rationals; JavaScript numbers are modelled as `Option ℚ`, with
`none` standing for NaN.  The stateful parts (the inactivity hide timer and
the React component with its effects and global listeners) are embedded as
explicit state machines driven by event traces.
-/

namespace Zinema

/-- A JavaScript number: `none` models NaN, `some q` a finite numeric value. -/
abbrev JSNum := Option ℚ

/-- JavaScript addition: NaN propagates. -/
def jsAdd : JSNum → JSNum → JSNum
  | some a, some b => some (a + b)
  | _, _ => none

/-- JavaScript Math.min: returns NaN if either argument is NaN. -/
def jsMin : JSNum → JSNum → JSNum
  | some a, some b => some (min a b)
  | _, _ => none

/-- JavaScript Math.max: returns NaN if either argument is NaN. -/
def jsMax : JSNum → JSNum → JSNum
  | some a, some b => some (max a b)
  | _, _ => none

/-- From `handleSeek` (VideoPlayer.tsx lines 287-293): the seek target is
`Math.max(0, Math.min(video.duration, video.currentTime + seconds))`, which is
then assigned to `video.currentTime`. -/
def handleSeekNewTime (duration currentTime : JSNum) (seconds : ℚ) : JSNum :=
  jsMax (some 0) (jsMin duration (jsAdd currentTime (some seconds)))

/-- From `handleProgressClick` (lines 295-302): `pos = (clientX - rect.left) /
rect.width`, then `video.currentTime = pos * video.duration`. -/
def handleProgressClickTime (clientX left width duration : ℚ) : ℚ :=
  ((clientX - left) / width) * duration

/-- JavaScript truncation toward zero, for the `%` remainder operator. -/
def jsTruncQ (q : ℚ) : ℤ :=
  if 0 ≤ q then ⌊q⌋ else ⌈q⌉

/-- JavaScript remainder `a % b = a - b * trunc(a / b)`. -/
def jsRem (a b : ℚ) : ℚ :=
  a - b * (jsTruncQ (a / b) : ℚ)

/-- String.padStart(2, the zero digit) as used on the seconds component. -/
def padStart2 (s : String) : String :=
  if s.length ≥ 2 then s else if s.length = 1 then "0" ++ s else "00"

/-- From `formatTime` (lines 371-376): NaN renders as the zero clock string;
otherwise `mins = Math.floor(seconds / 60)`, `secs = Math.floor(seconds % 60)`,
joined as `mins:secs` with the seconds padded to two digits. -/
def formatTime : JSNum → String
  | none => "0:00"
  | some s =>
    let mins : ℤ := ⌊s / 60⌋
    let secs : ℤ := ⌊jsRem s 60⌋
    toString mins ++ ":" ++ padStart2 (toString secs)

/-- From `handleVolumeChange` (lines 304-319): the parsed value is stored
unclamped; `muted` is set exactly when the new volume is 0. Returns the
`(volume, isMuted)` pair. -/
def handleVolumeChange (newVolume : ℚ) : ℚ × Bool :=
  if newVolume = 0 then (newVolume, true) else (newVolume, false)

/-- From `adjustVolume` (lines 321-335): the clamped next level
`Math.max(0, Math.min(1, current + delta))`. -/
def adjustVolumeNext (current delta : ℚ) : ℚ :=
  max 0 (min 1 (current + delta))

/-- From `adjustVolume` (lines 321-335): the level becomes the clamped next
value and `muted` is set exactly when that value is 0. -/
def adjustVolume (current delta : ℚ) : ℚ × Bool :=
  if adjustVolumeNext current delta = 0 then (adjustVolumeNext current delta, true)
  else (adjustVolumeNext current delta, false)

/-- The drag position math shared by the drag mousemove handler (lines
155-166) and the track mousedown handler (lines 574-587):
`pos = Math.max(0, Math.min(1, (clientX - rect.left) / rect.width))`. -/
def dragVolumePos (clientX left width : ℚ) : ℚ :=
  max 0 (min 1 ((clientX - left) / width))

/-- A drag update sets the volume to the clamped position and
`isMuted` to `pos === 0`. -/
def dragVolume (clientX left width : ℚ) : ℚ × Bool :=
  (dragVolumePos clientX left width, decide (dragVolumePos clientX left width = 0))

/-- From `handleMuteToggle` (lines 337-354), acting on the `(volume, isMuted)`
pair: when muted, unmute and restore 0.5 only if the level is 0; when unmuted,
set `muted` without touching the level. -/
def handleMuteToggle (volume : ℚ) (isMuted : Bool) : ℚ × Bool :=
  if isMuted then
    if volume = 0 then ((1 : ℚ) / 2, false) else (volume, false)
  else
    (volume, true)

/-- The volume operations the component exposes. -/
inductive VolumeOp where
  | set (v : ℚ)
  | adjust (delta : ℚ)
  | drag (clientX left width : ℚ)
  | toggleMute
deriving DecidableEq

/-- Dispatches one volume operation on the `(volume, isMuted)` pair. -/
def applyVolumeOp : VolumeOp → ℚ × Bool → ℚ × Bool
  | VolumeOp.set v, _ => handleVolumeChange v
  | VolumeOp.adjust d, p => adjustVolume p.1 d
  | VolumeOp.drag cx l w, _ => dragVolume cx l w
  | VolumeOp.toggleMute, p => handleMuteToggle p.1 p.2

/-- WebVTT cue alignment values. -/
inductive CueAlign where
  | start
  | center
  | stop
  | left
  | right
deriving DecidableEq

/-- A subtitle cue's position metadata. -/
structure Cue where
  line : ℤ
  position : ℚ
  align : CueAlign
deriving DecidableEq

/-- From `adjustSubtitlePosition` (lines 135-149): every cue of the track gets
the given line offset, horizontal position 50 and center alignment. -/
def adjustSubtitlePosition (line : ℤ) (cues : List Cue) : List Cue :=
  cues.map (fun _ => { line := line, position := 50, align := CueAlign.center })

/-- The four call sites of `adjustSubtitlePosition`. -/
inductive RepositionPath where
  | languageSelect
  | cueLoad
  | visibilityChange
  | metadataLoaded
deriving DecidableEq

/-- The line offset each call site passes, read off the source: the subtitle
effect (line 114) and its cuechange handler (line 118) pass
`showControls ? -4 : -2`; the visibility effect (line 259) and the
loaded-metadata handler (line 427) pass `showControls ? -5 : -2`. -/
def repositionLine (path : RepositionPath) (showControls : Bool) : ℤ :=
  match path with
  | RepositionPath.languageSelect => if showControls then -4 else -2
  | RepositionPath.cueLoad => if showControls then -4 else -2
  | RepositionPath.visibilityChange => if showControls then -5 else -2
  | RepositionPath.metadataLoaded => if showControls then -5 else -2

/-- Repositioning along a given path with the given controls visibility. -/
def repositionCues (path : RepositionPath) (showControls : Bool)
    (cues : List Cue) : List Cue :=
  adjustSubtitlePosition (repositionLine path showControls) cues

/-- A scheduled timeout: identifier and absolute fire time in milliseconds. -/
structure Timeout where
  id : ℕ
  fireAt : ℚ
deriving DecidableEq

/-- Timer-relevant state: the controls-visible flag, the `hideTimerRef` ref
holding the stored timeout id, the browser's pending-timeout table, the next
fresh timeout id, and the time of the last activity (ghost). -/
structure TimerSys where
  showControls : Bool
  hideTimerRef : Option ℕ
  pending : List Timeout
  nextId : ℕ
  lastActivity : ℚ
deriving DecidableEq

/-- window.clearTimeout: drop the pending timeout with the given id. -/
def clearTimeoutSys (i : ℕ) (s : TimerSys) : TimerSys :=
  { s with pending := s.pending.filter (fun t => t.id != i) }

/-- window.setTimeout scheduling the hide callback 2000ms out, storing the
returned id in `hideTimerRef` (lines 235-238). -/
def setHideTimeout (now : ℚ) (s : TimerSys) : TimerSys :=
  { s with pending := s.pending ++ [⟨s.nextId, now + 2000⟩],
           hideTimerRef := some s.nextId,
           nextId := s.nextId + 1 }

/-- From `resetHideTimer` (lines 230-234): if `hideTimerRef` holds an id,
clear that timeout and null the ref. -/
def clearStoredTimer (s : TimerSys) : TimerSys :=
  match s.hideTimerRef with
  | some i => { clearTimeoutSys i s with hideTimerRef := none }
  | none => s

/-- From `resetHideTimer` (lines 230-238): cancel the stored timeout, then
schedule a new hide at `now + 2000`. -/
def resetHideTimerSys (now : ℚ) (s : TimerSys) : TimerSys :=
  setHideTimeout now (clearStoredTimer s)

/-- From `handleMouseMove` (lines 240-243) and the `handleKeyPress` prologue
(lines 185-188): show the controls and reset the hide timer. -/
def notifyActivity (now : ℚ) (s : TimerSys) : TimerSys :=
  resetHideTimerSys now { s with showControls := true, lastActivity := now }

/-- The browser fires a pending timeout: it leaves the table and its callback
(lines 235-237) sets `showControls` to false. -/
def fireHide (t : Timeout) (s : TimerSys) : TimerSys :=
  { s with pending := s.pending.filter (fun u => u.id != t.id),
           showControls := false }

/-- Events driving the timer subsystem. -/
inductive TimerEv where
  | activity (now : ℚ)
  | fire (t : Timeout)
deriving DecidableEq

def timerStep (s : TimerSys) : TimerEv → TimerSys
  | TimerEv.activity now => notifyActivity now s
  | TimerEv.fire t => fireHide t s

/-- An event is enabled in a state: a timeout can fire only while pending. -/
def timerEvEnabled (s : TimerSys) : TimerEv → Bool
  | TimerEv.activity _ => true
  | TimerEv.fire t => decide (t ∈ s.pending)

def timerRun (s : TimerSys) : List TimerEv → TimerSys
  | [] => s
  | e :: es => timerRun (timerStep s e) es

def timerTraceOK (s : TimerSys) : List TimerEv → Bool
  | [] => true
  | e :: es => timerEvEnabled s e && timerTraceOK (timerStep s e) es

/-- The open effect (lines 245-253): fresh timer state, controls shown, hide
timer started. -/
def timerOpen (t0 : ℚ) : TimerSys :=
  notifyActivity t0
    { showControls := true, hideTimerRef := none, pending := [],
      nextId := 0, lastActivity := t0 }

/-- Timer invariant: at most one timeout is pending; any pending timeout is
the one stored in `hideTimerRef` and fires exactly 2000ms after the last
activity. -/
def TimerInv (s : TimerSys) : Prop :=
  s.pending.length ≤ 1 ∧
    ∀ t ∈ s.pending, s.hideTimerRef = some t.id ∧ t.fireAt = s.lastActivity + 2000

/-- A concrete valid trace: two activities inside the 2000ms window, then the
one scheduled hide fires at 3000ms. -/
def c5Trace : List TimerEv :=
  [TimerEv.activity 500, TimerEv.activity 1000, TimerEv.fire ⟨2, 3000⟩]

/-- The three values of the `subtitleLanguage` state (line 33). -/
inductive SubLang where
  | off
  | es
  | en
deriving DecidableEq

/-- The HTML video element, as the handlers read and write it.  A freshly
mounted element is paused at time 0 with default volume 1; `duration` is 0
until metadata loads (the NaN behaviour of a not-yet-loaded duration is
analysed separately through `JSNum`). -/
structure MediaEl where
  paused : Bool
  currentTime : ℚ
  duration : ℚ
  volume : ℚ
  muted : Bool
deriving DecidableEq

/-- Component props, hook state (lines 27-37), listener/timer resources and
the mounted media element. -/
structure CompState where
  videoId : Option ℕ
  isOpen : Bool
  isPlaying : Bool
  currentTime : ℚ
  duration : ℚ
  volume : ℚ
  isMuted : Bool
  isLoading : Bool
  subtitleLanguage : SubLang
  showSubtitleMenu : Bool
  isDraggingVolume : Bool
  showControls : Bool
  hideTimer : Option ℚ
  dragListeners : Bool
  keydownListener : Bool
  media : Option MediaEl
  fullscreen : Bool
deriving DecidableEq

/-- Initial hook state (lines 27-37): volume 0.7, not muted, loading, no
subtitles, controls shown, closed props, nothing mounted. -/
def initCompState : CompState :=
  { videoId := none, isOpen := false, isPlaying := false, currentTime := 0,
    duration := 0, volume := 7/10, isMuted := false, isLoading := true,
    subtitleLanguage := SubLang.off, showSubtitleMenu := false,
    isDraggingVolume := false, showControls := true, hideTimer := none,
    dragListeners := false, keydownListener := false, media := none,
    fullscreen := false }

/-- The component renders content (line 379) exactly when it is open with a
video; the refs point at DOM nodes exactly then. -/
def rendered (s : CompState) : Bool :=
  s.isOpen && s.videoId.isSome

/-- From `handlePlayPause` (lines 264-275). -/
def handlePlayPause (s : CompState) : CompState :=
  match s.media with
  | none => s
  | some m =>
    if m.paused then
      { s with media := some { m with paused := false }, isPlaying := true }
    else
      { s with media := some { m with paused := true }, isPlaying := false }

/-- From `handleSeek` (lines 287-293) on a numeric duration. -/
def handleSeekComp (seconds : ℚ) (s : CompState) : CompState :=
  match s.media with
  | none => s
  | some m =>
    { s with
      media := some { m with currentTime := max 0 (min m.duration (m.currentTime + seconds)) } }

/-- From `adjustVolume` (lines 321-335), wiring the pure `adjustVolume` into
the element and the two state setters. -/
def adjustVolumeComp (delta : ℚ) (s : CompState) : CompState :=
  match s.media with
  | none => s
  | some m =>
    { s with media := some { m with volume := (adjustVolume m.volume delta).1,
                                    muted := (adjustVolume m.volume delta).2 },
             volume := (adjustVolume m.volume delta).1,
             isMuted := (adjustVolume m.volume delta).2 }

/-- From `handleMuteToggle` (lines 337-354): unmuting restores 0.5 only when
the stored level is 0; muting never touches the level. -/
def handleMuteToggleComp (s : CompState) : CompState :=
  match s.media with
  | none => s
  | some m =>
    if s.isMuted then
      if s.volume = 0 then
        { s with media := some { m with muted := false, volume := 1/2 },
                 isMuted := false, volume := 1/2 }
      else
        { s with media := some { m with muted := false }, isMuted := false }
    else
      { s with media := some { m with muted := true }, isMuted := true }

/-- From `handleFullscreen` (lines 356-369): toggles platform fullscreen on
the container (which exists only while rendered); failures are non-fatal. -/
def handleFullscreen (s : CompState) : CompState :=
  if rendered s then { s with fullscreen := !s.fullscreen } else s

/-- The keys the `handleKeyPress` switch (lines 189-222) distinguishes. -/
inductive Key where
  | space
  | escape
  | arrowLeft
  | arrowRight
  | arrowUp
  | arrowDown
  | keyF
  | keyM
  | other
deriving DecidableEq

/-- The switch body of `handleKeyPress` (lines 189-222).  Escape calls
`onClose`, which in the hosts (`handleClosePlayer`) sets `isOpen` to false
and clears the selected video. -/
def dispatchKey (k : Key) (s : CompState) : CompState :=
  match k with
  | Key.space => handlePlayPause s
  | Key.escape => { s with isOpen := false, videoId := none }
  | Key.arrowLeft => handleSeekComp (-10) s
  | Key.arrowRight => handleSeekComp 10 s
  | Key.arrowUp => adjustVolumeComp (5/100) s
  | Key.arrowDown => adjustVolumeComp (-(5/100)) s
  | Key.keyF => handleFullscreen s
  | Key.keyM => handleMuteToggleComp s
  | Key.other => s

/-- From `handleKeyPress` (lines 185-223): any key first shows the controls
and resets the hide timer, then the switch dispatches. -/
def handleKeyPress (now : ℚ) (k : Key) (s : CompState) : CompState :=
  dispatchKey k { s with showControls := true, hideTimer := some (now + 2000) }

/-- Externally visible events: parent renders with new props, keyboard,
pointer move over the player, volume-track mousedown, document-level mouse
move/up (the drag listeners), metadata arrival, and the hide timer firing. -/
inductive Ev where
  | setProps (now : ℚ) (videoId : Option ℕ) (isOpen : Bool)
  | key (now : ℚ) (k : Key)
  | pointerMove (now : ℚ)
  | volMouseDown (clientX left width : ℚ)
  | docMouseMove (clientX left width : ℚ)
  | docMouseUp
  | loadedMetadata (duration : ℚ)
  | timerFire (now : ℚ)
deriving DecidableEq

/-- The event handlers, gated on the listener or DOM node that delivers each
event: keydown needs the window listener (lines 182-227), pointer/mouse-down
events need the rendered nodes, the document drag handlers (lines 155-170)
need the drag listeners and return early when the refs are gone, and the
timer callback (lines 235-237) needs its scheduled timeout. -/
def handleEvent (s : CompState) : Ev → CompState
  | Ev.setProps _ vid op => { s with videoId := vid, isOpen := op }
  | Ev.key now k => if s.keydownListener then handleKeyPress now k s else s
  | Ev.pointerMove now =>
      if rendered s then { s with showControls := true, hideTimer := some (now + 2000) }
      else s
  | Ev.volMouseDown cx l w =>
      if rendered s then
        match s.media with
        | some m =>
          { s with isDraggingVolume := true,
                   media := some { m with volume := dragVolumePos cx l w },
                   volume := dragVolumePos cx l w,
                   isMuted := decide (dragVolumePos cx l w = 0) }
        | none => { s with isDraggingVolume := true }
      else s
  | Ev.docMouseMove cx l w =>
      if s.dragListeners then
        match s.media with
        | some m =>
          { s with media := some { m with volume := dragVolumePos cx l w },
                   volume := dragVolumePos cx l w,
                   isMuted := decide (dragVolumePos cx l w = 0) }
        | none => s
      else s
  | Ev.docMouseUp =>
      if s.dragListeners then { s with isDraggingVolume := false } else s
  | Ev.loadedMetadata dur =>
      if rendered s then
        match s.media with
        | some m =>
          { s with duration := dur, isLoading := false,
                   media := some { m with duration := dur, volume := s.volume,
                                          muted := s.isMuted } }
        | none => s
      else s
  | Ev.timerFire now =>
      match s.hideTimer with
      | some tf =>
          if now = tf then { s with showControls := false, hideTimer := none } else s
      | none => s

/-- React reconciliation after an event: mount/unmount of the rendered
subtree, then the effects whose dependency arrays changed — the reset-state
effect with deps `[video, isOpen]` (lines 87-96), the keyboard effect with
deps `[isOpen, isPlaying]` (lines 182-227), the drag effect with deps
`[isDraggingVolume]` (lines 152-179), and the open/close timer effect with
deps `[isOpen]` (lines 245-253). -/
def runEffects (now : ℚ) (prev next : CompState) : CompState :=
  let s0 := if rendered next then
      (if rendered prev then next
       else { next with media := some { paused := true, currentTime := 0, duration := 0,
                                        volume := 1, muted := next.isMuted } })
    else { next with media := none }
  let s1 := if (s0.videoId ≠ prev.videoId ∨ s0.isOpen ≠ prev.isOpen) ∧
               s0.isOpen = true ∧ s0.videoId.isSome = true then
      { s0 with isPlaying := false, currentTime := 0, isLoading := true,
                subtitleLanguage := SubLang.off, showSubtitleMenu := false }
    else s0
  let s2 := { s1 with keydownListener := s1.isOpen }
  let s3 := if s2.isDraggingVolume ≠ prev.isDraggingVolume then
      { s2 with dragListeners := s2.isDraggingVolume }
    else s2
  if s3.isOpen ≠ prev.isOpen then
    (if s3.isOpen then { s3 with showControls := true, hideTimer := some (now + 2000) }
     else { s3 with hideTimer := none })
  else s3

/-- Event timestamps used by the timer-scheduling effects. -/
def evTime : Ev → ℚ
  | Ev.setProps now _ _ => now
  | Ev.key now _ => now
  | Ev.pointerMove now => now
  | Ev.timerFire now => now
  | _ => 0

/-- One external event: run the handler, then reconcile. -/
def step (s : CompState) (e : Ev) : CompState :=
  runEffects (evTime e) s (handleEvent s e)

def runTrace (s : CompState) (evs : List Ev) : CompState :=
  evs.foldl step s

/-- Trace: open video 1, load metadata (duration 42), ArrowDown (volume
0.7 to 0.65), close, open video 2. -/
def c3Trace : List Ev :=
  [Ev.setProps 0 (some 1) true, Ev.loadedMetadata 42, Ev.key 1 Key.arrowDown,
   Ev.setProps 2 none false, Ev.setProps 3 (some 2) true]

/-- Trace: open video 1, start a volume drag on the track, then close the
player mid-drag. -/
def c6Trace : List Ev :=
  [Ev.setProps 0 (some 1) true, Ev.volMouseDown 5 0 10, Ev.setProps 1 none false]

def c6State : CompState :=
  runTrace initCompState [Ev.setProps 0 (some 1) true, Ev.volMouseDown 5 0 10]

def c7State : CompState := step initCompState (Ev.setProps 0 (some 1) true)

/-- The media element as mounted by opening the player, before metadata. -/
def c7Media : MediaEl :=
  { paused := true, currentTime := 0, duration := 0, volume := 1, muted := false }

/-! ### Lemmas and claim theorems -/

lemma handleSeekNewTime_some (d c seconds : ℚ) :
    handleSeekNewTime (some d) (some c) seconds
      = some (max 0 (min d (c + seconds))) := rfl

lemma seek_clamp_mem (d x : ℚ) (hd : 0 ≤ d) :
    0 ≤ max 0 (min d x) ∧ max 0 (min d x) ≤ d :=
  ⟨le_max_left 0 _, max_le hd (min_le_left d x)⟩

lemma progressClick_mem (clientX left width duration : ℚ) (hw : 0 < width)
    (hl : left ≤ clientX) (hr : clientX ≤ left + width) (hd : 0 ≤ duration) :
    0 ≤ handleProgressClickTime clientX left width duration ∧
      handleProgressClickTime clientX left width duration ≤ duration := by
  have hpos0 : 0 ≤ (clientX - left) / width :=
    div_nonneg (by linarith) hw.le
  have hpos1 : (clientX - left) / width ≤ 1 :=
    (div_le_one hw).mpr (by linarith)
  constructor
  · exact mul_nonneg hpos0 hd
  · simpa [handleProgressClickTime] using mul_le_of_le_one_left hd hpos1

/-- Claim C1 counterexample: on the language-selection reposition path with
controls visible, the code positions cues at line -4, not -5 as claimed. -/
theorem claimC1_counterexample :
    ¬ (∀ cue ∈ repositionCues RepositionPath.languageSelect true
          [{ line := 0, position := 0, align := CueAlign.left }],
        cue.line = -5) := by
  decide

/-- Claim C1 (amended): every reposition path sets horizontal position 50 and
center alignment on every cue; the vertical line offset is -2 whenever
controls are hidden, and when controls are visible it is -4 on the
language-selection and cue-load paths but -5 on the visibility-change and
metadata-loaded paths. -/
theorem claimC1_theorem (path : RepositionPath) (sc : Bool) (cues : List Cue)
    (cue : Cue) (hc : cue ∈ repositionCues path sc cues) :
    cue.position = 50 ∧ cue.align = CueAlign.center ∧
      cue.line = (if sc then
          (if path = RepositionPath.languageSelect ∨ path = RepositionPath.cueLoad
            then -4 else -5)
        else -2) := by
  simp only [repositionCues, adjustSubtitlePosition, List.mem_map] at hc
  obtain ⟨a, -, rfl⟩ := hc
  refine ⟨rfl, rfl, ?_⟩
  cases path <;> cases sc <;> simp [repositionLine]

/-- Claim C1 witness: the amended statement checked on a concrete cue list. -/
theorem claimC1_witness :
    (repositionCues RepositionPath.visibilityChange true
        [{ line := 0, position := 0, align := CueAlign.left }]).head?
      = some { line := -5, position := 50, align := CueAlign.center } ∧
    ({ line := -5, position := 50, align := CueAlign.center } : Cue).position = 50 ∧
    ({ line := -5, position := 50, align := CueAlign.center } : Cue).align
      = CueAlign.center ∧
    ({ line := -5, position := 50, align := CueAlign.center } : Cue).line = -5 := by
  have h := claimC1_theorem RepositionPath.visibilityChange true
    [{ line := 0, position := 0, align := CueAlign.left }]
    { line := -5, position := 50, align := CueAlign.center } (by decide)
  exact ⟨by decide, h.1, h.2.1, by decide⟩

/-- Claim C2 counterexample: toggling mute at level 0.7 leaves the level at
0.7 while setting the muted flag, so `muted == (level == 0)` fails. -/
theorem claimC2_counterexample :
    (applyVolumeOp VolumeOp.toggleMute (7/10, false)).2 = true ∧
      (applyVolumeOp VolumeOp.toggleMute (7/10, false)).1 ≠ 0 := by
  refine ⟨rfl, ?_⟩
  show (7/10 : ℚ) ≠ 0
  norm_num

/-- Claim C2 (amended): after every volume operation the level stays in
[0, 1] (for `set`, granted an in-range input, since `handleVolumeChange` does
not clamp), and `level == 0` implies `muted`; the full biconditional
`muted == (level == 0)` holds after `set`, `adjust` and drag updates, but not
after `toggleMute`, which mutes without zeroing the level. -/
theorem claimC2_theorem (op : VolumeOp) (vol : ℚ) (muted : Bool)
    (h0 : 0 ≤ vol) (h1 : vol ≤ 1)
    (hset : ∀ v, op = VolumeOp.set v → 0 ≤ v ∧ v ≤ 1) :
    (0 ≤ (applyVolumeOp op (vol, muted)).1 ∧ (applyVolumeOp op (vol, muted)).1 ≤ 1) ∧
    ((applyVolumeOp op (vol, muted)).1 = 0 → (applyVolumeOp op (vol, muted)).2 = true) ∧
    (op ≠ VolumeOp.toggleMute →
      ((applyVolumeOp op (vol, muted)).2 = true ↔ (applyVolumeOp op (vol, muted)).1 = 0)) := by
  cases op with
  | set v =>
    obtain ⟨hv0, hv1⟩ := hset v rfl
    simp only [applyVolumeOp, handleVolumeChange]
    split_ifs with h
    · exact ⟨⟨hv0, hv1⟩, fun _ => rfl, fun _ => by simp [h]⟩
    · exact ⟨⟨hv0, hv1⟩, fun h0 => absurd h0 h, fun _ => by simp [h]⟩
  | adjust d =>
    have hb : 0 ≤ adjustVolumeNext vol d ∧ adjustVolumeNext vol d ≤ 1 :=
      ⟨le_max_left 0 _, max_le zero_le_one (min_le_left 1 _)⟩
    simp only [applyVolumeOp, adjustVolume]
    split_ifs with h
    · exact ⟨hb, fun _ => rfl, fun _ => by simp [h]⟩
    · exact ⟨hb, fun h0 => absurd h0 h, fun _ => by simp [h]⟩
  | drag cx l w =>
    have hb : 0 ≤ dragVolumePos cx l w ∧ dragVolumePos cx l w ≤ 1 :=
      ⟨le_max_left 0 _, max_le zero_le_one (min_le_left 1 _)⟩
    refine ⟨hb, ?_, ?_⟩
    · intro h
      exact decide_eq_true h
    · intro _
      exact decide_eq_true_iff
  | toggleMute =>
    cases muted with
    | false =>
      have hval : applyVolumeOp VolumeOp.toggleMute (vol, false) = (vol, true) := by
        simp [applyVolumeOp, handleMuteToggle]
      rw [hval]
      exact ⟨⟨h0, h1⟩, fun _ => rfl, fun hne => absurd rfl hne⟩
    | true =>
      by_cases hv : vol = 0
      · have hval : applyVolumeOp VolumeOp.toggleMute (vol, true) = ((1 : ℚ)/2, false) := by
          simp [applyVolumeOp, handleMuteToggle, hv]
        rw [hval]
        refine ⟨⟨by norm_num, by norm_num⟩, ?_, fun hne => absurd rfl hne⟩
        intro h2
        norm_num at h2
      · have hval : applyVolumeOp VolumeOp.toggleMute (vol, true) = (vol, false) := by
          simp [applyVolumeOp, handleMuteToggle, hv]
        rw [hval]
        exact ⟨⟨h0, h1⟩, fun h2 => absurd h2 hv, fun hne => absurd rfl hne⟩

/-- Claim C2 witness: the amended statement at `adjustVolume` from level 0.03
by -0.05, which clamps to level 0 and mutes. -/
theorem claimC2_witness :
    ((0 : ℚ) ≤ (3/100 : ℚ) ∧ (3/100 : ℚ) ≤ 1) ∧
    (0 ≤ (applyVolumeOp (VolumeOp.adjust (-(5/100))) (3/100, false)).1 ∧
      (applyVolumeOp (VolumeOp.adjust (-(5/100))) (3/100, false)).1 ≤ 1) ∧
    ((applyVolumeOp (VolumeOp.adjust (-(5/100))) (3/100, false)).1 = 0 →
      (applyVolumeOp (VolumeOp.adjust (-(5/100))) (3/100, false)).2 = true) ∧
    (VolumeOp.adjust (-(5/100)) ≠ VolumeOp.toggleMute →
      ((applyVolumeOp (VolumeOp.adjust (-(5/100))) (3/100, false)).2 = true ↔
        (applyVolumeOp (VolumeOp.adjust (-(5/100))) (3/100, false)).1 = 0)) := by
  refine ⟨⟨by norm_num, by norm_num⟩, ?_⟩
  exact claimC2_theorem (VolumeOp.adjust (-(5/100))) (3/100) false
    (by norm_num) (by norm_num) (by intro v h; cases h)

/-- Claim C4: every `seekBy` target is clamped into [0, duration] for any
delta and any current time, and a progress-bar click within the bar's bounds
lands in [0, duration] as well. -/
theorem claimC4_theorem (d c seconds clientX left width duration : ℚ)
    (hd : 0 ≤ d) (hw : 0 < width) (hl : left ≤ clientX)
    (hr : clientX ≤ left + width) (hdur : 0 ≤ duration) :
    (∃ r, handleSeekNewTime (some d) (some c) seconds = some r ∧ 0 ≤ r ∧ r ≤ d) ∧
    (0 ≤ handleProgressClickTime clientX left width duration ∧
      handleProgressClickTime clientX left width duration ≤ duration) := by
  refine ⟨⟨max 0 (min d (c + seconds)), handleSeekNewTime_some d c seconds, ?_⟩, ?_⟩
  · exact seek_clamp_mem d (c + seconds) hd
  · exact progressClick_mem clientX left width duration hw hl hr hdur

/-- Claim C4 witness: a concrete backwards seek past 0 and a concrete
progress click, both landing inside [0, duration]. -/
theorem claimC4_witness :
    (∃ r, handleSeekNewTime (some 30) (some 4) (-10) = some r ∧ 0 ≤ r ∧ r ≤ 30) ∧
    (0 ≤ handleProgressClickTime 6 2 8 30 ∧ handleProgressClickTime 6 2 8 30 ≤ 30) :=
  claimC4_theorem 30 4 (-10) 6 2 8 30 (by norm_num) (by norm_num) (by norm_num)
    (by norm_num) (by norm_num)

/-- Claim C8 counterexample: with a malformed (NaN) duration, `handleSeek`
computes a NaN seek target — the clamp propagates NaN instead of treating the
duration as 0 — and assigns it to `currentTime`. -/
theorem claimC8_counterexample :
    handleSeekNewTime none (some 5) (-10) = none ∧
      handleSeekNewTime none (some 5) (-10) ≠ some 0 := by
  decide

/-- Claim C8 (amended): a malformed (NaN) duration is treated as 0 only by the
time display (`formatTime` renders the zero clock string); `handleSeek` is not
disabled and its clamp propagates NaN into the assigned `currentTime`. For a
numeric duration `d ≥ 0` no error condition arises and the seek target stays
in [0, d]. -/
theorem claimC8_theorem (c seconds d : ℚ) (hd : 0 ≤ d) :
    handleSeekNewTime none (some c) seconds = none ∧
    formatTime none = "0:00" ∧
    (∃ r, handleSeekNewTime (some d) (some c) seconds = some r ∧ 0 ≤ r ∧ r ≤ d) := by
  refine ⟨rfl, rfl, max 0 (min d (c + seconds)), handleSeekNewTime_some d c seconds, ?_⟩
  exact seek_clamp_mem d (c + seconds) hd

/-- Claim C8 witness: the amended statement at a concrete current time, delta
and duration. -/
theorem claimC8_witness :
    handleSeekNewTime none (some 5) (-10) = none ∧
    formatTime none = "0:00" ∧
    (∃ r, handleSeekNewTime (some 3) (some 5) (-10) = some r ∧ 0 ≤ r ∧ r ≤ 3) :=
  claimC8_theorem 5 (-10) 3 (by norm_num)

/-- Claim C9: toggling mute twice from an unmuted state clears the muted flag
and restores exactly the pre-mute level, except that a pre-mute level of 0 is
restored to 0.5. -/
theorem claimC9_theorem (v : ℚ) :
    (handleMuteToggle (handleMuteToggle v false).1 (handleMuteToggle v false).2).2
      = false ∧
    (handleMuteToggle (handleMuteToggle v false).1 (handleMuteToggle v false).2).1
      = if v = 0 then (1 : ℚ) / 2 else v := by
  have h1 : handleMuteToggle v false = (v, true) := by
    simp [handleMuteToggle]
  rw [h1]
  by_cases hv : v = 0
  · simp [handleMuteToggle, hv]
  · simp [handleMuteToggle, hv]

lemma clearStoredTimer_pending (s : TimerSys)
    (hlen : s.pending.length ≤ 1)
    (href : ∀ t ∈ s.pending, s.hideTimerRef = some t.id) :
    (clearStoredTimer s).pending = [] := by
  rcases hp : s.pending with _ | ⟨t, rest⟩
  · cases h : s.hideTimerRef <;>
      simp [clearStoredTimer, h, clearTimeoutSys, hp]
  · rcases rest with _ | ⟨u, rest2⟩
    · have h := href t (by simp [hp])
      simp [clearStoredTimer, h, clearTimeoutSys, hp]
    · simp [hp] at hlen

@[simp] lemma clearStoredTimer_showControls (s : TimerSys) :
    (clearStoredTimer s).showControls = s.showControls := by
  cases h : s.hideTimerRef <;> simp [clearStoredTimer, h, clearTimeoutSys]

@[simp] lemma clearStoredTimer_nextId (s : TimerSys) :
    (clearStoredTimer s).nextId = s.nextId := by
  cases h : s.hideTimerRef <;> simp [clearStoredTimer, h, clearTimeoutSys]

@[simp] lemma clearStoredTimer_lastActivity (s : TimerSys) :
    (clearStoredTimer s).lastActivity = s.lastActivity := by
  cases h : s.hideTimerRef <;> simp [clearStoredTimer, h, clearTimeoutSys]

/-- On any state satisfying the reference part of the invariant,
`notifyActivity` shows the controls, cancels the previously scheduled hide and
leaves exactly one pending timeout at `now + 2000`. -/
lemma notifyActivity_spec (now : ℚ) (s : TimerSys)
    (hlen : s.pending.length ≤ 1)
    (href : ∀ t ∈ s.pending, s.hideTimerRef = some t.id) :
    (notifyActivity now s).showControls = true ∧
      (notifyActivity now s).pending = [⟨s.nextId, now + 2000⟩] ∧
      (notifyActivity now s).hideTimerRef = some s.nextId ∧
      (notifyActivity now s).nextId = s.nextId + 1 ∧
      (notifyActivity now s).lastActivity = now := by
  have hp : (clearStoredTimer { s with showControls := true, lastActivity := now }).pending = [] :=
    clearStoredTimer_pending _ hlen href
  refine ⟨?_, ?_, ?_, ?_, ?_⟩ <;>
    simp [notifyActivity, resetHideTimerSys, setHideTimeout, hp]

lemma timerInv_step (s : TimerSys) (e : TimerEv) (h : TimerInv s) :
    TimerInv (timerStep s e) := by
  obtain ⟨hlen, hall⟩ := h
  cases e with
  | activity now =>
    obtain ⟨-, hp, href, -, hla⟩ :=
      notifyActivity_spec now s hlen (fun t ht => (hall t ht).1)
    simp only [timerStep]
    refine ⟨by rw [hp]; exact le_refl 1, ?_⟩
    intro t ht
    rw [hp] at ht
    simp only [List.mem_singleton] at ht
    subst ht
    exact ⟨href, by rw [hla]⟩
  | fire t =>
    refine ⟨le_trans (List.length_filter_le _ _) hlen, ?_⟩
    intro u hu
    have hu2 : u ∈ s.pending := List.mem_of_mem_filter hu
    exact hall u hu2

lemma timerInv_run (s : TimerSys) (evs : List TimerEv) (h : TimerInv s) :
    TimerInv (timerRun s evs) := by
  induction evs generalizing s with
  | nil => exact h
  | cons e es ih => exact ih (timerStep s e) (timerInv_step s e h)

lemma timerInv_open (t0 : ℚ) : TimerInv (timerOpen t0) := by
  constructor
  · simp [timerOpen, notifyActivity, resetHideTimerSys, clearStoredTimer,
      setHideTimeout]
  · intro t ht
    simp only [timerOpen, notifyActivity, resetHideTimerSys, clearStoredTimer,
      setHideTimeout, List.nil_append, List.mem_singleton] at ht
    subst ht
    simp [timerOpen, notifyActivity, resetHideTimerSys, clearStoredTimer,
      setHideTimeout]

lemma notifyActivity_showControls (now : ℚ) (s : TimerSys) :
    (notifyActivity now s).showControls = true := by
  simp [notifyActivity, resetHideTimerSys, setHideTimeout]

lemma timerRun_showControls_of_no_fire (s : TimerSys) (evs : List TimerEv)
    (h : s.showControls = true) (hf : ∀ t, TimerEv.fire t ∉ evs) :
    (timerRun s evs).showControls = true := by
  induction evs generalizing s with
  | nil => exact h
  | cons e es ih =>
    cases e with
    | activity now =>
      refine ih (timerStep s (TimerEv.activity now))
        (notifyActivity_showControls now s) ?_
      intro t ht
      exact hf t (List.mem_cons_of_mem _ ht)
    | fire t => exact absurd (List.mem_cons_self _ _) (fun hmem => hf t hmem)

/-- Claim C5: along any valid event trace from player open, the state after
the trace has at most one pending hide timeout; a further `notifyActivity`
shows the controls and replaces the pending table with exactly one timeout
2000ms out (cancel-then-reschedule); only a timeout scheduled exactly 2000ms
after the last activity can fire, so no stale or early hide ever fires; a
firing hide indeed hides the controls; and the visible flag cannot have
flipped to false unless some hide actually fired during the trace. -/
theorem claimC5_theorem (t0 : ℚ) (evs : List TimerEv)
    (hok : timerTraceOK (timerOpen t0) evs = true) :
    ((timerRun (timerOpen t0) evs).pending.length ≤ 1) ∧
    (∀ now,
      (notifyActivity now (timerRun (timerOpen t0) evs)).showControls = true ∧
      (notifyActivity now (timerRun (timerOpen t0) evs)).pending
        = [⟨(timerRun (timerOpen t0) evs).nextId, now + 2000⟩]) ∧
    (∀ t, timerEvEnabled (timerRun (timerOpen t0) evs) (TimerEv.fire t) = true →
      t.fireAt = (timerRun (timerOpen t0) evs).lastActivity + 2000) ∧
    (∀ t, (fireHide t (timerRun (timerOpen t0) evs)).showControls = false) ∧
    ((∀ t, TimerEv.fire t ∉ evs) → (timerRun (timerOpen t0) evs).showControls = true) := by
  have hinv : TimerInv (timerRun (timerOpen t0) evs) :=
    timerInv_run _ evs (timerInv_open t0)
  obtain ⟨hlen, hall⟩ := hinv
  refine ⟨hlen, ?_, ?_, ?_, ?_⟩
  · intro now
    obtain ⟨hsc, hp, -, -, -⟩ :=
      notifyActivity_spec now _ hlen (fun t ht => (hall t ht).1)
    exact ⟨hsc, hp⟩
  · intro t ht
    simp only [timerEvEnabled, decide_eq_true_eq] at ht
    exact (hall t ht).2
  · intro t
    simp [fireHide]
  · intro hnf
    refine timerRun_showControls_of_no_fire _ evs ?_ hnf
    exact notifyActivity_showControls t0 _

/-- Claim C5 witness: the theorem applied to the concrete trace `c5Trace`. -/
theorem claimC5_witness :
    ((timerRun (timerOpen 0) c5Trace).pending.length ≤ 1) ∧
    (notifyActivity 1500 (timerRun (timerOpen 0) c5Trace)).showControls = true ∧
    (fireHide ⟨2, 3000⟩ (timerRun (timerOpen 0) c5Trace)).showControls = false := by
  have hok : timerTraceOK (timerOpen 0) c5Trace = true := by
    norm_num [c5Trace, timerTraceOK, timerEvEnabled, timerStep, timerOpen,
      notifyActivity, resetHideTimerSys, clearStoredTimer, clearTimeoutSys,
      setHideTimeout, fireHide, List.filter]
  obtain ⟨h1, h2, -, h4, -⟩ := claimC5_theorem 0 c5Trace hok
  exact ⟨h1, (h2 1500).1, h4 ⟨2, 3000⟩⟩

lemma runEffects_volume_fields (now : ℚ) (prev next : CompState) :
    (runEffects now prev next).volume = next.volume ∧
      (runEffects now prev next).isMuted = next.isMuted ∧
      (runEffects now prev next).duration = next.duration := by
  simp only [runEffects]
  split_ifs <;> simp

/-- Claim C3 counterexample: after changing the volume and loading metadata in
one session, closing and reopening with a different video leaves volume 0.65
and duration 42 — not the initial 0.7 and 0 — so volume, mute and duration
state persists across videos and sessions. -/
theorem claimC3_counterexample :
    (runTrace initCompState c3Trace).volume = 13/20 ∧
    (runTrace initCompState c3Trace).duration = 42 ∧
    initCompState.volume = 7/10 ∧ initCompState.duration = 0 ∧
    ((13:ℚ)/20 ≠ 7/10) ∧ ((42:ℚ) ≠ 0) := by
  norm_num [c3Trace, runTrace, step, handleEvent, runEffects, evTime, rendered,
    initCompState, handleKeyPress, dispatchKey, adjustVolumeComp, adjustVolume,
    adjustVolumeNext, List.foldl, min_def, max_def]

/-- Claim C3 (amended): on every open of the player with a video, the
reset-on-open effect resets exactly playing flag, current time, loading flag,
subtitle language and subtitle menu to their initial values (and the open
effect shows the controls), but volume level, muted flag and duration are not
reset: they keep whatever values the previous session left, because the
component stays mounted across closes. -/
theorem claimC3_theorem (s : CompState) (now : ℚ) (vid : ℕ)
    (hclosed : s.isOpen = false) :
    ((step s (Ev.setProps now (some vid) true)).isPlaying = false) ∧
    ((step s (Ev.setProps now (some vid) true)).currentTime = 0) ∧
    ((step s (Ev.setProps now (some vid) true)).isLoading = true) ∧
    ((step s (Ev.setProps now (some vid) true)).subtitleLanguage = SubLang.off) ∧
    ((step s (Ev.setProps now (some vid) true)).showSubtitleMenu = false) ∧
    ((step s (Ev.setProps now (some vid) true)).showControls = true) ∧
    ((step s (Ev.setProps now (some vid) true)).volume = s.volume) ∧
    ((step s (Ev.setProps now (some vid) true)).isMuted = s.isMuted) ∧
    ((step s (Ev.setProps now (some vid) true)).duration = s.duration) := by
  simp [step, handleEvent, runEffects, evTime, rendered, hclosed]

/-- Claim C10: the volume state initializes to level 0.7 with muted false
(and duration to 0); the reset-on-open prop change never touches volume,
muted or duration, and neither do non-volume, non-media events (a play/pause
key, a pointer move, the hide timer firing, a drag release), so those values
change only through explicit volume operations or media signals. -/
theorem claimC10_theorem (s : CompState) (now t : ℚ) (vid : Option ℕ)
    (op : Bool) :
    initCompState.volume = 7/10 ∧ initCompState.isMuted = false ∧
    initCompState.duration = 0 ∧
    ((step s (Ev.setProps now vid op)).volume = s.volume ∧
      (step s (Ev.setProps now vid op)).isMuted = s.isMuted ∧
      (step s (Ev.setProps now vid op)).duration = s.duration) ∧
    ((step s (Ev.key now Key.space)).volume = s.volume ∧
      (step s (Ev.key now Key.space)).duration = s.duration) ∧
    ((step s (Ev.pointerMove now)).volume = s.volume ∧
      (step s (Ev.pointerMove now)).isMuted = s.isMuted ∧
      (step s (Ev.pointerMove now)).duration = s.duration) ∧
    ((step s (Ev.timerFire t)).volume = s.volume ∧
      (step s (Ev.timerFire t)).isMuted = s.isMuted ∧
      (step s (Ev.timerFire t)).duration = s.duration) ∧
    ((step s Ev.docMouseUp).volume = s.volume ∧
      (step s Ev.docMouseUp).isMuted = s.isMuted ∧
      (step s Ev.docMouseUp).duration = s.duration) := by
  refine ⟨rfl, rfl, rfl, ?_, ?_, ?_, ?_, ?_⟩
  · exact ⟨(runEffects_volume_fields _ _ _).1, (runEffects_volume_fields _ _ _).2.1,
      (runEffects_volume_fields _ _ _).2.2⟩
  · obtain ⟨h1, -, h3⟩ := runEffects_volume_fields now s (handleEvent s (Ev.key now Key.space))
    refine ⟨h1.trans ?_, h3.trans ?_⟩ <;>
      rcases hm : s.media with - | m <;>
        simp [handleEvent, handleKeyPress, dispatchKey, handlePlayPause, hm] <;>
          split_ifs <;> simp
  · obtain ⟨h1, h2, h3⟩ := runEffects_volume_fields now s (handleEvent s (Ev.pointerMove now))
    refine ⟨h1.trans ?_, h2.trans ?_, h3.trans ?_⟩ <;>
      simp [handleEvent] <;> split_ifs <;> simp
  · obtain ⟨h1, h2, h3⟩ := runEffects_volume_fields t s (handleEvent s (Ev.timerFire t))
    refine ⟨h1.trans ?_, h2.trans ?_, h3.trans ?_⟩ <;>
      rcases ht : s.hideTimer with - | tf <;>
        simp [handleEvent, ht] <;> split_ifs <;> simp
  · obtain ⟨h1, h2, h3⟩ := runEffects_volume_fields 0 s (handleEvent s Ev.docMouseUp)
    refine ⟨h1.trans ?_, h2.trans ?_, h3.trans ?_⟩ <;>
      simp [handleEvent] <;> split_ifs <;> simp

/-- Claim C6 (amended): closing the player clears the hide timer, detaches
the keyboard listener, and unmounts the media element, after which global
pointer moves change no volume (the drag handler returns early on the null
refs); but the drag's global pointer listeners are not detached by the close
itself — they stay attached exactly while `isDraggingVolume` holds and are
released only by the next pointer-up. -/
theorem claimC6_theorem (s : CompState) (now cx l w : ℚ)
    (hopen : s.isOpen = true) (hdl : s.dragListeners = s.isDraggingVolume) :
    ((step s (Ev.setProps now none false)).hideTimer = none) ∧
    ((step s (Ev.setProps now none false)).keydownListener = false) ∧
    ((step s (Ev.setProps now none false)).media = none) ∧
    ((step (step s (Ev.setProps now none false)) (Ev.docMouseMove cx l w)).volume
        = (step s (Ev.setProps now none false)).volume) ∧
    ((step (step s (Ev.setProps now none false)) (Ev.docMouseMove cx l w)).isMuted
        = (step s (Ev.setProps now none false)).isMuted) ∧
    ((step (step s (Ev.setProps now none false)) (Ev.docMouseMove cx l w)).media = none) ∧
    ((step s (Ev.setProps now none false)).dragListeners = s.isDraggingVolume) ∧
    ((step (step s (Ev.setProps now none false)) Ev.docMouseUp).dragListeners = false) := by
  have hclose : step s (Ev.setProps now none false)
      = { s with videoId := none, isOpen := false, media := none,
                 keydownListener := false, hideTimer := none,
                 dragListeners := s.isDraggingVolume } := by
    by_cases hd : s.isDraggingVolume = s.dragListeners
    · simp [step, handleEvent, runEffects, evTime, rendered, hopen, hdl]
    · simp [step, handleEvent, runEffects, evTime, rendered, hopen, hdl] at hd ⊢
  rw [hclose]
  refine ⟨rfl, rfl, rfl, ?_, ?_, ?_, rfl, ?_⟩
  · simp [step, handleEvent, runEffects, evTime, rendered]
  · simp [step, handleEvent, runEffects, evTime, rendered]
  · simp [step, handleEvent, runEffects, evTime, rendered]
  · rcases hv : s.isDraggingVolume <;>
      simp [step, handleEvent, runEffects, evTime, rendered, hv]

lemma runEffects_id (now : ℚ) (prev next : CompState)
    (hvid : next.videoId = prev.videoId) (hopen : next.isOpen = prev.isOpen)
    (hdrag : next.isDraggingVolume = prev.isDraggingVolume)
    (hrend : rendered prev = true) (hkl : next.keydownListener = next.isOpen) :
    runEffects now prev next = next := by
  have hrn : rendered next = true := by
    simpa [rendered, hvid, hopen] using hrend
  cases next
  cases prev
  simp_all [runEffects, rendered]

lemma dispatchKey_fields (k : Key) (s : CompState) (hk : k ≠ Key.escape) :
    (dispatchKey k s).videoId = s.videoId ∧
    (dispatchKey k s).isOpen = s.isOpen ∧
    (dispatchKey k s).isDraggingVolume = s.isDraggingVolume ∧
    (dispatchKey k s).keydownListener = s.keydownListener ∧
    (dispatchKey k s).showControls = s.showControls ∧
    (dispatchKey k s).hideTimer = s.hideTimer := by
  cases k with
  | escape => exact absurd rfl hk
  | space =>
    rcases hm : s.media with - | m <;>
      simp [dispatchKey, handlePlayPause, hm]
    split_ifs <;> simp
  | arrowLeft =>
    rcases hm : s.media with - | m <;> simp [dispatchKey, handleSeekComp, hm]
  | arrowRight =>
    rcases hm : s.media with - | m <;> simp [dispatchKey, handleSeekComp, hm]
  | arrowUp =>
    rcases hm : s.media with - | m <;> simp [dispatchKey, adjustVolumeComp, hm]
  | arrowDown =>
    rcases hm : s.media with - | m <;> simp [dispatchKey, adjustVolumeComp, hm]
  | keyF =>
    simp only [dispatchKey, handleFullscreen]
    split_ifs <;> simp
  | keyM =>
    rcases hm : s.media with - | m <;>
      simp [dispatchKey, handleMuteToggleComp, hm]
    split_ifs <;> simp
  | other => simp [dispatchKey]

lemma step_key_eq (s : CompState) (now : ℚ) (k : Key)
    (hopen : s.isOpen = true) (hvid : s.videoId.isSome = true)
    (hkl : s.keydownListener = true) (hk : k ≠ Key.escape) :
    step s (Ev.key now k)
      = dispatchKey k { s with showControls := true, hideTimer := some (now + 2000) } := by
  obtain ⟨f1, f2, f3, f4, -, -⟩ :=
    dispatchKey_fields k { s with showControls := true, hideTimer := some (now + 2000) } hk
  have h1 : handleEvent s (Ev.key now k)
      = dispatchKey k { s with showControls := true, hideTimer := some (now + 2000) } := by
    simp [handleEvent, hkl, handleKeyPress]
  show runEffects now s (handleEvent s (Ev.key now k)) = _
  rw [h1]
  refine runEffects_id now s _ (f1.trans rfl) (f2.trans rfl) (f3.trans rfl)
    (by simp [rendered, hopen, hvid]) ?_
  rw [f4, f2]
  show s.keydownListener = s.isOpen
  rw [hkl, hopen]

lemma step_key_escape (s : CompState) (now : ℚ)
    (hopen : s.isOpen = true) (hkl : s.keydownListener = true) :
    step s (Ev.key now Key.escape)
      = { s with showControls := true, hideTimer := none, isOpen := false,
                 videoId := none, media := none, keydownListener := false } := by
  simp [step, handleEvent, hkl, handleKeyPress, dispatchKey, runEffects, evTime,
    rendered, hopen]

/-- Claim C7: while the player is open, every key press shows the controls,
and every key other than Escape reschedules the hide timer 2000ms out, as
does every pointer move; the switch dispatches exactly the mapped operation:
space toggles play/pause, Escape closes, ArrowLeft and ArrowRight seek by
-10 and +10 clamped, ArrowUp and ArrowDown adjust volume by +0.05 and -0.05,
f toggles fullscreen, m toggles mute, and unmapped keys change nothing else. -/
theorem claimC7_theorem (s : CompState) (now : ℚ) (m : MediaEl)
    (hopen : s.isOpen = true) (hvid : s.videoId.isSome = true)
    (hkl : s.keydownListener = true) (hm : s.media = some m) :
    (∀ k, (step s (Ev.key now k)).showControls = true) ∧
    (∀ k, k ≠ Key.escape → (step s (Ev.key now k)).hideTimer = some (now + 2000)) ∧
    ((step s (Ev.pointerMove now)).showControls = true ∧
      (step s (Ev.pointerMove now)).hideTimer = some (now + 2000)) ∧
    ((step s (Ev.key now Key.space)).isPlaying = m.paused) ∧
    ((step s (Ev.key now Key.escape)).isOpen = false ∧
      (step s (Ev.key now Key.escape)).keydownListener = false ∧
      (step s (Ev.key now Key.escape)).hideTimer = none) ∧
    ((step s (Ev.key now Key.arrowLeft)).media
        = some { m with currentTime := max 0 (min m.duration (m.currentTime + (-10))) }) ∧
    ((step s (Ev.key now Key.arrowRight)).media
        = some { m with currentTime := max 0 (min m.duration (m.currentTime + 10)) }) ∧
    ((step s (Ev.key now Key.arrowUp)).volume = (adjustVolume m.volume (5/100)).1 ∧
      (step s (Ev.key now Key.arrowUp)).isMuted = (adjustVolume m.volume (5/100)).2) ∧
    ((step s (Ev.key now Key.arrowDown)).volume = (adjustVolume m.volume (-(5/100))).1 ∧
      (step s (Ev.key now Key.arrowDown)).isMuted = (adjustVolume m.volume (-(5/100))).2) ∧
    ((step s (Ev.key now Key.keyF)).fullscreen = !s.fullscreen) ∧
    ((step s (Ev.key now Key.keyM)).isMuted = !s.isMuted) ∧
    ((step s (Ev.key now Key.other)).volume = s.volume ∧
      (step s (Ev.key now Key.other)).isPlaying = s.isPlaying ∧
      (step s (Ev.key now Key.other)).media = s.media ∧
      (step s (Ev.key now Key.other)).isMuted = s.isMuted ∧
      (step s (Ev.key now Key.other)).fullscreen = s.fullscreen) := by
  refine ⟨?_, ?_, ?_, ?_, ?_, ?_, ?_, ?_, ?_, ?_, ?_, ?_⟩
  · intro k
    by_cases hk : k = Key.escape
    · subst hk
      rw [step_key_escape s now hopen hkl]
    · rw [step_key_eq s now k hopen hvid hkl hk]
      exact (dispatchKey_fields k _ hk).2.2.2.2.1
  · intro k hk
    rw [step_key_eq s now k hopen hvid hkl hk]
    exact (dispatchKey_fields k _ hk).2.2.2.2.2
  · constructor <;>
      simp [step, handleEvent, runEffects, evTime, rendered, hopen, hvid]
  · rw [step_key_eq s now Key.space hopen hvid hkl (by simp)]
    simp only [dispatchKey, handlePlayPause, hm]
    split_ifs with h <;> simp_all
  · rw [step_key_escape s now hopen hkl]
    exact ⟨rfl, rfl, rfl⟩
  · rw [step_key_eq s now Key.arrowLeft hopen hvid hkl (by simp)]
    simp [dispatchKey, handleSeekComp, hm]
  · rw [step_key_eq s now Key.arrowRight hopen hvid hkl (by simp)]
    simp [dispatchKey, handleSeekComp, hm]
  · rw [step_key_eq s now Key.arrowUp hopen hvid hkl (by simp)]
    simp [dispatchKey, adjustVolumeComp, hm]
  · rw [step_key_eq s now Key.arrowDown hopen hvid hkl (by simp)]
    simp [dispatchKey, adjustVolumeComp, hm]
  · rw [step_key_eq s now Key.keyF hopen hvid hkl (by simp)]
    simp [dispatchKey, handleFullscreen, rendered, hopen, hvid]
  · rw [step_key_eq s now Key.keyM hopen hvid hkl (by simp)]
    simp only [dispatchKey, handleMuteToggleComp, hm]
    rcases hmu : s.isMuted <;> simp [hmu] <;> split_ifs <;> simp
  · rw [step_key_eq s now Key.other hopen hvid hkl (by simp)]
    simp [dispatchKey]

/-- Claim C6 counterexample: closing mid-drag leaves the closed player with
the global drag pointer listeners still attached, contradicting "the core
holds no timers or global listeners (drag pointer listeners detached)". -/
theorem claimC6_counterexample :
    (runTrace initCompState c6Trace).isOpen = false ∧
    (runTrace initCompState c6Trace).dragListeners = true := by
  norm_num [c6Trace, runTrace, step, handleEvent, runEffects, evTime, rendered,
    initCompState, dragVolumePos, List.foldl, min_def, max_def]

/-- Claim C3 witness: the amended statement at the initial closed state. -/
theorem claimC3_witness :
    ((step initCompState (Ev.setProps 0 (some 1) true)).isPlaying = false) ∧
    ((step initCompState (Ev.setProps 0 (some 1) true)).currentTime = 0) ∧
    ((step initCompState (Ev.setProps 0 (some 1) true)).isLoading = true) ∧
    ((step initCompState (Ev.setProps 0 (some 1) true)).subtitleLanguage = SubLang.off) ∧
    ((step initCompState (Ev.setProps 0 (some 1) true)).showSubtitleMenu = false) ∧
    ((step initCompState (Ev.setProps 0 (some 1) true)).showControls = true) ∧
    ((step initCompState (Ev.setProps 0 (some 1) true)).volume = initCompState.volume) ∧
    ((step initCompState (Ev.setProps 0 (some 1) true)).isMuted = initCompState.isMuted) ∧
    ((step initCompState (Ev.setProps 0 (some 1) true)).duration = initCompState.duration) :=
  claimC3_theorem initCompState 0 1 rfl

/-- Claim C6 witness: the amended statement on the concrete mid-drag state
reached by opening and pressing the volume track. -/
theorem claimC6_witness :
    ((step c6State (Ev.setProps 1 none false)).hideTimer = none) ∧
    ((step c6State (Ev.setProps 1 none false)).keydownListener = false) ∧
    ((step c6State (Ev.setProps 1 none false)).media = none) ∧
    ((step (step c6State (Ev.setProps 1 none false)) (Ev.docMouseMove 2 0 4)).volume
        = (step c6State (Ev.setProps 1 none false)).volume) ∧
    ((step (step c6State (Ev.setProps 1 none false)) (Ev.docMouseMove 2 0 4)).isMuted
        = (step c6State (Ev.setProps 1 none false)).isMuted) ∧
    ((step (step c6State (Ev.setProps 1 none false)) (Ev.docMouseMove 2 0 4)).media = none) ∧
    ((step c6State (Ev.setProps 1 none false)).dragListeners = c6State.isDraggingVolume) ∧
    ((step (step c6State (Ev.setProps 1 none false)) Ev.docMouseUp).dragListeners = false) := by
  have h1 : c6State.isOpen = true := by
    norm_num [c6State, runTrace, step, handleEvent, runEffects, evTime, rendered,
      initCompState, dragVolumePos, List.foldl, min_def, max_def]
  have h2 : c6State.dragListeners = c6State.isDraggingVolume := by
    norm_num [c6State, runTrace, step, handleEvent, runEffects, evTime, rendered,
      initCompState, dragVolumePos, List.foldl, min_def, max_def]
  exact claimC6_theorem c6State 1 2 0 4 h1 h2

/-- Claim C7 witness: selected dispatch facts at the concrete just-opened
state and its freshly mounted media element. -/
theorem claimC7_witness :
    ((step c7State (Ev.key 10 Key.space)).isPlaying = c7Media.paused) ∧
    ((step c7State (Ev.key 10 Key.arrowRight)).media
        = some { c7Media with
                 currentTime := max 0 (min c7Media.duration (c7Media.currentTime + 10)) }) ∧
    ((step c7State (Ev.key 10 Key.arrowUp)).volume = (adjustVolume c7Media.volume (5/100)).1) ∧
    ((step c7State (Ev.key 10 Key.keyM)).isMuted = !c7State.isMuted) ∧
    ((step c7State (Ev.key 10 Key.escape)).isOpen = false) ∧
    ((step c7State (Ev.pointerMove 10)).showControls = true) ∧
    ((step c7State (Ev.key 10 Key.other)).hideTimer = some (10 + 2000)) := by
  have h1 : c7State.isOpen = true := by
    norm_num [c7State, step, handleEvent, runEffects, evTime, rendered, initCompState]
  have h2 : c7State.videoId.isSome = true := by
    norm_num [c7State, step, handleEvent, runEffects, evTime, rendered, initCompState]
  have h3 : c7State.keydownListener = true := by
    norm_num [c7State, step, handleEvent, runEffects, evTime, rendered, initCompState]
  have h4 : c7State.media = some c7Media := by
    norm_num [c7State, c7Media, step, handleEvent, runEffects, evTime, rendered,
      initCompState]
  obtain ⟨hA, hB, hC, hD, hE, hF, hG, hH, hI, hJ, hK, hL⟩ :=
    claimC7_theorem c7State 10 c7Media h1 h2 h3 h4
  exact ⟨hD, hG, hH.1, hK, hE.1, hC.1, hB Key.other (by decide)⟩

end Zinema
